import Mathlib

/-!
Verification of the Linux usbfs transfer backend and device-handle layer of a
user-space USB host library.

The definitions below are a shallow embedding of the Rust source:
machine integers are modelled as `Nat` (with explicit bounds where Rust
conversions can fail), raw pointers as abstract `Nat` allocation identifiers,
heap buffers as `List Nat` of byte values, and fallible operations
(assertion failures, `expect` panics, slice-index panics) as `Option`.
Definitions whose Rust source is outside the extracted tree are modelled from
the specification and marked as such in their doc comments.
-/

namespace Nusb

/-- Transfer status error taxonomy, from the library's transfer error enum. -/
inductive TransferError
  | Cancelled
  | Stall
  | Disconnected
  | Fault
  | Unknown
deriving DecidableEq, Repr

/-- Linux errno values used by the usbfs backend (from the libc/rustix
constants referenced by `errno_to_transfer_error`). -/
def ENODEV : Nat := 19
def ESHUTDOWN : Nat := 108
def EPIPE : Nat := 32
def ENOENT : Nat := 2
def ECONNRESET : Nat := 104
def ETIMEDOUT : Nat := 110
def EPROTO : Nat := 71
def EILSEQ : Nat := 84
def EOVERFLOW : Nat := 75
def ECOMM : Nat := 70
def ETIME : Nat := 62

/-- Embedding of `errno_to_transfer_error` in `src/platform/linux_usbfs/mod.rs`:
maps a (nonnegative) errno to the transfer error taxonomy. -/
def errno_to_transfer_error (e : Nat) : TransferError :=
  if e = ENODEV ∨ e = ESHUTDOWN then TransferError.Disconnected
  else if e = EPIPE then TransferError.Stall
  else if e = ENOENT ∨ e = ECONNRESET ∨ e = ETIMEDOUT then TransferError.Cancelled
  else if e = EPROTO ∨ e = EILSEQ ∨ e = EOVERFLOW ∨ e = ECOMM ∨ e = ETIME then
    TransferError.Fault
  else TransferError.Unknown

/-- Modelled from the spec: usbfs urb type constants (the `usbfs.rs` module is
not part of the extracted tree). Only their distinctness matters to the code. -/
def USBDEVFS_URB_TYPE_ISO : Nat := 0
def USBDEVFS_URB_TYPE_INTERRUPT : Nat := 1
def USBDEVFS_URB_TYPE_CONTROL : Nat := 2
def USBDEVFS_URB_TYPE_BULK : Nat := 3

/-- The four USB endpoint transfer types, from the library's `TransferType`. -/
inductive TransferType
  | Control
  | Interrupt
  | Bulk
  | Isochronous
deriving DecidableEq, Repr

/-- Per-packet descriptor of an isochronous urb (`usbdevfs_iso_packet_desc`):
all three fields are unsigned 32-bit integers. -/
structure IsoPacketDesc where
  length : Nat
  actual_length : Nat
  status : Nat
deriving DecidableEq, Repr

/-- Embedding of the usbfs `Urb` control block, restricted to the fields the
extracted code reads or writes. `buffer` is `none` when the raw pointer is
null, `some p` when it holds allocation id `p`. -/
structure Urb where
  ep_type : Nat
  endpoint : Nat
  status : Int
  buffer : Option Nat
  buffer_length : Nat
  actual_length : Nat
  usercontext : Nat
  number_of_packets : Nat
  iso_frame_desc : List IsoPacketDesc
deriving DecidableEq, Repr

/-- A Rust `Vec<u8>` decomposed into raw parts: allocation id, initialized
bytes, and capacity. -/
structure Vec where
  ptr : Nat
  data : List Nat
  capacity : Nat
deriving DecidableEq, Repr

/-- Embedding of `TransferData` (Linux-specific transfer state): the urb
control block (held out-of-line at allocation `urb_ptr`), the recorded buffer
capacity, and `mem`, the bytes currently stored in the buffer allocation
installed in the urb (empty when no buffer is installed). The device and
interface reference counts carry no transfer-visible data and are omitted. -/
structure TransferData where
  urb_ptr : Nat
  urb : Urb
  capacity : Nat
  mem : List Nat
deriving DecidableEq, Repr

/-- Embedding of `TransferData::new`: a fresh transfer with a zeroed urb and
no buffer installed. -/
def TransferData.new (urbPtr : Nat) (endpoint : Nat) (ep_type : TransferType) :
    TransferData :=
  let ty := match ep_type with
    | TransferType.Control => USBDEVFS_URB_TYPE_CONTROL
    | TransferType.Interrupt => USBDEVFS_URB_TYPE_INTERRUPT
    | TransferType.Bulk => USBDEVFS_URB_TYPE_BULK
    | TransferType.Isochronous => USBDEVFS_URB_TYPE_ISO
  { urb_ptr := urbPtr,
    urb := { ep_type := ty, endpoint := endpoint, status := 0, buffer := none,
             buffer_length := 0, actual_length := 0, usercontext := 0,
             number_of_packets := 0, iso_frame_desc := [] },
    capacity := 0,
    mem := [] }

/-- Largest value of a Rust `i32`, the bound enforced by
`len.try_into().expect("buffer size should fit in i32")` in `fill`. -/
def I32_MAX : Nat := 2147483647

/-- Largest value of a Rust `u32`, the bound asserted on the per-packet
requested length in `urb_setup_iso_packet_descriptors`. -/
def U32_MAX : Nat := 4294967295

/-- Embedding of `TransferData::fill`: installs the vector's pointer and the
given length in the urb, records the capacity, and resets `actual_length`.
Returns `none` when the length does not fit in an `i32` (the `expect` panics). -/
def TransferData.fill (td : TransferData) (v : Vec) (len user_data : Nat) :
    Option TransferData :=
  if len ≤ I32_MAX then
    some { td with
      urb := { td.urb with
        buffer := some v.ptr,
        buffer_length := len,
        usercontext := user_data,
        actual_length := 0 },
      capacity := v.capacity,
      mem := v.data }
  else none

/-- Embedding of `TransferData::take_buf`: rebuilds a vector from the urb's
buffer pointer, the given length and the recorded capacity, nulling the urb
pointer and zeroing the capacity. Returns `none` when an assertion fires
(null buffer pointer, or `length > capacity`). -/
def TransferData.take_buf (td : TransferData) (length : Nat) :
    Option (Vec × TransferData) :=
  match td.urb.buffer with
  | none => none
  | some p =>
    if length ≤ td.capacity then
      some (⟨p, td.mem.take length, td.capacity⟩,
        { td with urb := { td.urb with buffer := none }, capacity := 0, mem := [] })
    else none

/-- Embedding of `impl Drop for TransferData`: the list of allocations freed,
in order — the buffer vector if its pointer is non-null, then the urb box. -/
def TransferData.dropFreed (td : TransferData) : List Nat :=
  (match td.urb.buffer with
   | some p => [p]
   | none => []) ++ [td.urb_ptr]

/-- Embedding of `TransferData::urb_setup_iso_packet_descriptors`: grows the
urb allocation to hold `number_of_packets` packet descriptors, each
initialised with `length = requested`, `actual_length = 0`, `status = 0`.
Returns `none` when the `requested <= u32::MAX` assertion fires. -/
def TransferData.urb_setup_iso_packet_descriptors (td : TransferData)
    (number_of_packets requested : Nat) : Option TransferData :=
  if requested ≤ U32_MAX then
    some { td with urb := { td.urb with
      number_of_packets := number_of_packets % (U32_MAX + 1),
      iso_frame_desc := List.replicate number_of_packets
        ⟨requested, 0, 0⟩ } }
  else none

/-- Embedding of `urb_status` in `transfer.rs`: `Ok` exactly when the urb's
status field is zero, otherwise the transfer error for the absolute value of
the errno stored in the status. -/
def urb_status (urb : Urb) : Except TransferError Unit :=
  if urb.status = 0 then Except.ok ()
  else Except.error (errno_to_transfer_error urb.status.natAbs)

/-- A completion: payload typed by the buffer variant, plus a status. -/
structure Completion (α : Type) where
  data : α
  status : Except TransferError Unit

/-- Modelled from the spec: `RequestBuffer { cap, requested }` (its module is
not part of the extracted tree) — capacity at least `requested`, logical
length 0; `into_vec` yields the empty-length vector and the requested size. -/
structure RequestBuffer where
  ptr : Nat
  capacity : Nat
  requested : Nat
deriving DecidableEq, Repr

/-- Modelled from the spec: `RequestBuffer::into_vec` returns the underlying
vector (length 0) together with the requested length. -/
def RequestBuffer.into_vec (r : RequestBuffer) : Vec × Nat :=
  (⟨r.ptr, [], r.capacity⟩, r.requested)

/-- Modelled from the spec: `ResponseBuffer { cap, valid_len }` (its module is
not part of the extracted tree) — a recycled OUT-transfer allocation plus the
informational transferred length. -/
structure ResponseBuffer where
  ptr : Nat
  capacity : Nat
  actual_length : Nat
deriving DecidableEq, Repr

/-- Modelled from the spec: `ResponseBuffer::from_vec` keeps the vector's
allocation and capacity and records the transferred length. -/
def ResponseBuffer.from_vec (v : Vec) (len : Nat) : ResponseBuffer :=
  ⟨v.ptr, v.capacity, len⟩

/-- Embedding of `RequestIsochronousBuffer` (`transfer/isochronous_buffer.rs`):
raw buffer pointer, capacity, per-packet requested length, packet count. -/
structure RequestIsochronousBuffer where
  buf : Nat
  capacity : Nat
  requested : Nat
  number_of_packets : Nat
deriving DecidableEq, Repr

/-- Embedding of `RequestIsochronousBuffer::into_vec`: the vector with length
0 over the same allocation, paired with `requested * number_of_packets`. -/
def RequestIsochronousBuffer.into_vec (r : RequestIsochronousBuffer) :
    Vec × Nat :=
  (⟨r.buf, [], r.capacity⟩, r.requested * r.number_of_packets)

/-- Embedding of `PlatformSubmit<Vec<u8>>::submit` (bulk/interrupt OUT):
asserts the endpoint direction bit is clear, then fills the urb with the data
and its full length. `none` models an assertion failure or `fill` panic. -/
def submitOutBytes (td : TransferData) (data : Vec) (user_data : Nat) :
    Option TransferData :=
  if td.urb.endpoint &&& 128 = 0 then
    td.fill data data.data.length user_data
  else none

/-- Embedding of `PlatformSubmit<RequestBuffer>::submit` (bulk/interrupt IN):
asserts the endpoint direction bit is set and the urb type is bulk or
interrupt, then fills the urb with the empty vector and the requested length. -/
def submitRequestBuffer (td : TransferData) (data : RequestBuffer)
    (user_data : Nat) : Option TransferData :=
  if td.urb.endpoint &&& 128 = 128 ∧
      (td.urb.ep_type = USBDEVFS_URB_TYPE_BULK ∨
       td.urb.ep_type = USBDEVFS_URB_TYPE_INTERRUPT) then
    let (v, len) := data.into_vec
    td.fill v len user_data
  else none

/-- Embedding of `PlatformSubmit<RequestIsochronousBuffer>::submit`: asserts
the endpoint direction bit is set and the urb type is isochronous, sets up the
packet descriptors, then fills the urb. -/
def submitIsochronous (td : TransferData) (data : RequestIsochronousBuffer)
    (user_data : Nat) : Option TransferData :=
  if td.urb.endpoint &&& 128 = 128 ∧ td.urb.ep_type = USBDEVFS_URB_TYPE_ISO then
    match td.urb_setup_iso_packet_descriptors data.number_of_packets
        data.requested with
    | none => none
    | some td1 =>
      let (v, len) := data.into_vec
      td1.fill v len user_data
  else none

/-- Embedding of `PlatformSubmit<Vec<u8>>::take_completed`: reads the status
and actual length, takes the buffer back with length 0, and wraps it in a
response buffer recording the actual length. -/
def takeCompletedOut (td : TransferData) :
    Option (Completion ResponseBuffer × TransferData) :=
  let status := urb_status td.urb
  let len := td.urb.actual_length
  (td.take_buf 0).map fun r =>
    (⟨ResponseBuffer.from_vec r.1 len, status⟩, r.2)

/-- Embedding of `PlatformSubmit<RequestBuffer>::take_completed`: takes the
buffer back with length equal to the urb's actual length. -/
def takeCompletedRequestBuffer (td : TransferData) :
    Option (Completion Vec × TransferData) :=
  let status := urb_status td.urb
  let len := td.urb.actual_length
  (td.take_buf len).map fun r => (⟨r.1, status⟩, r.2)

/-- Embedding of the slicing loop in
`PlatformSubmit<RequestIsochronousBuffer>::take_completed`: walks the packet
descriptors keeping a running offset `start`; a packet with status 0
contributes `buf[start..start + actual_length]`, every packet advances the
offset by its `length` field. `none` models an out-of-bounds slice panic. -/
def isoSlice (buf : List Nat) : Nat → List IsoPacketDesc →
    Option (List (List Nat))
  | _, [] => some []
  | start, d :: rest =>
    if d.status = 0 then
      if start + d.actual_length ≤ buf.length then
        match isoSlice buf (start + d.length) rest with
        | some tl => some (((buf.drop start).take d.actual_length) :: tl)
        | none => none
      else none
    else isoSlice buf (start + d.length) rest

/-- Embedding of `PlatformSubmit<RequestIsochronousBuffer>::take_completed`:
takes the whole buffer back (`buffer_length` bytes) and slices it according
to the packet descriptors. -/
def takeCompletedIsochronous (td : TransferData) :
    Option (Completion (List (List Nat)) × TransferData) :=
  let status := urb_status td.urb
  let len := td.urb.buffer_length
  match td.take_buf len with
  | none => none
  | some (buffer, td1) =>
    match isoSlice buffer.data 0 td1.urb.iso_frame_desc with
    | none => none
    | some out => some (⟨out, status⟩, td1)

/-- The USB control request types, from the library's `ControlType`. -/
inductive ControlType
  | Standard
  | Class
  | Vendor
deriving DecidableEq, Repr

/-- Modelled from the spec: the wire value of a control request type
(0 = Standard, 1 = Class, 2 = Vendor). -/
def ControlType.val : ControlType → Nat
  | ControlType.Standard => 0
  | ControlType.Class => 1
  | ControlType.Vendor => 2

/-- The USB control request recipients, from the library's `Recipient`. -/
inductive Recipient
  | Device
  | Interface
  | Endpoint
  | Other
deriving DecidableEq, Repr

/-- Modelled from the spec: the wire value of a control recipient
(0 = Device, 1 = Interface, 2 = Endpoint, 3 = Other). -/
def Recipient.val : Recipient → Nat
  | Recipient.Device => 0
  | Recipient.Interface => 1
  | Recipient.Endpoint => 2
  | Recipient.Other => 3

/-- Modelled from the spec: `SETUP_PACKET_SIZE` is 8, the length of a USB
control setup packet. -/
def SETUP_PACKET_SIZE : Nat := 8

/-- Modelled from the spec: byte 0 of a setup packet,
`(direction << 7) | (control_type << 5) | recipient`. -/
def packRequestType (direction : Nat) (ct : ControlType) (r : Recipient) :
    Nat :=
  direction * 128 + ct.val * 32 + r.val

/-- Parameters of an IN control transfer, from the library's `ControlIn`
(`request`, `value`, `index`, `length` are u8/u16/u16/u16 values). -/
structure ControlIn where
  control_type : ControlType
  recipient : Recipient
  request : Nat
  value : Nat
  index : Nat
  length : Nat
deriving DecidableEq, Repr

/-- Modelled from the spec: the 8-byte setup packet of an IN control transfer
(direction bit 1, little-endian `value`, `index` and `length`). -/
def ControlIn.setup_packet (c : ControlIn) : List Nat :=
  [packRequestType 1 c.control_type c.recipient, c.request,
   c.value % 256, c.value / 256 % 256,
   c.index % 256, c.index / 256 % 256,
   c.length % 256, c.length / 256 % 256]

/-- Parameters of an OUT control transfer, from the library's `ControlOut`. -/
structure ControlOut where
  control_type : ControlType
  recipient : Recipient
  request : Nat
  value : Nat
  index : Nat
  data : List Nat
deriving DecidableEq, Repr

/-- Modelled from the spec: the 8-byte setup packet of an OUT control
transfer; `none` when the data length does not fit in the u16 `wLength`
field. -/
def ControlOut.setup_packet (c : ControlOut) : Option (List Nat) :=
  if c.data.length ≤ 65535 then
    some [packRequestType 0 c.control_type c.recipient, c.request,
      c.value % 256, c.value / 256 % 256,
      c.index % 256, c.index / 256 % 256,
      c.data.length % 256, c.data.length / 256 % 256]
  else none

/-- Embedding of `PlatformSubmit<ControlIn>::submit`: allocates a buffer of
`SETUP_PACKET_SIZE + length` capacity (at fresh allocation `freshPtr`)
holding the setup packet, and fills the urb with that buffer and the full
buffer length. -/
def submitControlIn (td : TransferData) (data : ControlIn)
    (freshPtr user_data : Nat) : Option TransferData :=
  let buf_len := SETUP_PACKET_SIZE + data.length
  let buf : Vec := ⟨freshPtr, data.setup_packet, buf_len⟩
  td.fill buf buf_len user_data

/-- Embedding of `PlatformSubmit<ControlIn>::take_completed`: takes back
`SETUP_PACKET_SIZE + actual_length` bytes and removes the first
`SETUP_PACKET_SIZE` bytes (the `splice(0..SETUP_PACKET_SIZE, [])`). -/
def takeCompletedControlIn (td : TransferData) :
    Option (Completion Vec × TransferData) :=
  let status := urb_status td.urb
  let len := td.urb.actual_length
  (td.take_buf (SETUP_PACKET_SIZE + len)).map fun r =>
    (⟨{ r.1 with data := r.1.data.drop SETUP_PACKET_SIZE }, status⟩, r.2)

/-- Embedding of `PlatformSubmit<ControlOut>::submit`: allocates a buffer of
`SETUP_PACKET_SIZE + data.len()` capacity holding the setup packet followed
by the caller's data; `none` when the setup packet `expect` panics. -/
def submitControlOut (td : TransferData) (data : ControlOut)
    (freshPtr user_data : Nat) : Option TransferData :=
  match data.setup_packet with
  | none => none
  | some sp =>
    let buf_len := SETUP_PACKET_SIZE + data.data.length
    let buf : Vec := ⟨freshPtr, sp ++ data.data, buf_len⟩
    td.fill buf buf_len user_data

/-- Embedding of `PlatformSubmit<ControlOut>::take_completed`: takes the
buffer back with length 0 and wraps it in a response buffer. -/
def takeCompletedControlOut (td : TransferData) :
    Option (Completion ResponseBuffer × TransferData) :=
  let status := urb_status td.urb
  let len := td.urb.actual_length
  (td.take_buf 0).map fun r =>
    (⟨ResponseBuffer.from_vec r.1 len, status⟩, r.2)

/-- Modelled from the spec: the expected isochronous output sequence — the
`i`-th packet (packets numbered from the given start index) occupies the
fixed slot starting at byte offset `i * L` of the buffer; a packet with
status 0 contributes the `actual_length`-byte starting segment of its slot,
a packet with non-zero status contributes nothing. -/
def isoOutputSpec (buf : List Nat) (L : Nat) : Nat → List IsoPacketDesc →
    List (List Nat)
  | _, [] => []
  | i, d :: rest =>
    if d.status = 0 then
      ((buf.drop (i * L)).take d.actual_length) :: isoOutputSpec buf L (i + 1) rest
    else isoOutputSpec buf L (i + 1) rest

/-- Parameters of a control request, from the library's `Control`. -/
structure Control where
  control_type : ControlType
  recipient : Recipient
  request : Nat
  value : Nat
  index : Nat
deriving DecidableEq, Repr

/-- Library error kind relevant to the device-handle operations under
verification: a transfer error propagated from a blocking control call, or
the `InvalidData` descriptor-validation error. -/
inductive Error
  | transfer (e : TransferError)
  | invalidData
deriving DecidableEq, Repr

/-- The standard GET_DESCRIPTOR request code, from `Device::get_descriptor`. -/
def STANDARD_REQUEST_GET_DESCRIPTOR : Nat := 6

/-- Modelled from the spec: the string descriptor type code 0x03 (the
`descriptors` module is not part of the extracted tree). -/
def DESCRIPTOR_TYPE_STRING : Nat := 3

/-- A blocking control-IN backend, abstracting
`Device::control_in_blocking`: given the control parameters, the destination
buffer length and the timeout, it either fails with a transfer error or
returns the bytes it wrote at the start of the buffer (at most the buffer
length, which the theorems assume). -/
def ControlInBlocking : Type :=
  Control → Nat → Nat → Except TransferError (List Nat)

/-- Embedding of `Device::get_descriptor` (non-Windows branch): issues a
Standard/Device GET_DESCRIPTOR control-IN with
`value = (desc_type << 8) | desc_index`, `index = language_id` and the given
timeout into a 4096-byte zeroed buffer, then truncates the buffer to the
reported length. -/
def get_descriptor (ci : ControlInBlocking)
    (desc_type desc_index language_id timeout : Nat) :
    Except Error (List Nat) :=
  let buf := List.replicate 4096 0
  match ci ⟨ControlType.Standard, Recipient.Device,
      STANDARD_REQUEST_GET_DESCRIPTOR,
      (desc_type <<< 8) ||| desc_index, language_id⟩ buf.length timeout with
  | Except.error e => Except.error (Error.transfer e)
  | Except.ok written =>
    Except.ok ((written ++ buf.drop written.length).take written.length)

/-- Modelled from the spec: `validate_string_descriptor` (the `descriptors`
module is not part of the extracted tree) — byte 0 must equal the actual
byte length and byte 1 must be the string descriptor type 0x03. -/
def validate_string_descriptor (data : List Nat) : Bool :=
  match data with
  | b0 :: b1 :: _ => b0 == data.length && b1 == DESCRIPTOR_TYPE_STRING
  | _ => false

/-- Embedding of the language-id decoding loop in
`Device::get_string_descriptor_supported_languages`: consecutive byte pairs
as little-endian 16-bit values, dropping a trailing odd byte. -/
def langIdPairs : List Nat → List Nat
  | a :: b :: rest => (a + 256 * b) :: langIdPairs rest
  | _ => []

/-- Embedding of `Device::get_string_descriptor_supported_languages`:
requests string descriptor index 0 with language id 0, validates it, and
decodes the body (bytes after the first two) as language ids. -/
def get_string_descriptor_supported_languages (ci : ControlInBlocking)
    (timeout : Nat) : Except Error (List Nat) :=
  match get_descriptor ci DESCRIPTOR_TYPE_STRING 0 0 timeout with
  | Except.error e => Except.error e
  | Except.ok data =>
    if validate_string_descriptor data then
      Except.ok (langIdPairs (data.drop 2))
    else Except.error Error.invalidData

/-- A cached configuration descriptor, abstracted to its configuration value
and its raw bytes (descriptor parsing is outside the verified core). -/
structure ConfigurationDescriptor where
  configuration_value : Nat
  raw : List Nat
deriving DecidableEq, Repr

/-- The error returned when no cached configuration descriptor matches the
OS-reported active configuration value. -/
structure ActiveConfigurationError where
  configuration_value : Nat
deriving DecidableEq, Repr

/-- Embedding of `Device::active_configuration`: finds the first cached
configuration descriptor whose value equals the backend-reported active
value, or fails carrying that value. -/
def active_configuration (configs : List ConfigurationDescriptor)
    (active : Nat) : Except ActiveConfigurationError ConfigurationDescriptor :=
  match configs.find? (fun c => c.configuration_value == active) with
  | some c => Except.ok c
  | none => Except.error ⟨active⟩

/-! Concrete states and inputs used by the witness and counterexample
theorems below. -/

/-- A completed `ControlIn` transfer: setup packet for a 4-byte vendor read
followed by the 4 received bytes; the OS reported `actual_length = 4`. -/
def tdControlInDone : TransferData :=
  { urb_ptr := 1,
    urb := { ep_type := USBDEVFS_URB_TYPE_CONTROL, endpoint := 0, status := 0,
             buffer := some 2, buffer_length := 12, actual_length := 4,
             usercontext := 0, number_of_packets := 0, iso_frame_desc := [] },
    capacity := 12,
    mem := [192, 48, 0, 0, 0, 0, 4, 0, 10, 20, 30, 40] }

/-- A completed bulk OUT transfer of 4 bytes. -/
def tdOutDone : TransferData :=
  { urb_ptr := 3,
    urb := { ep_type := USBDEVFS_URB_TYPE_BULK, endpoint := 2, status := 0,
             buffer := some 4, buffer_length := 4, actual_length := 4,
             usercontext := 0, number_of_packets := 0, iso_frame_desc := [] },
    capacity := 4,
    mem := [222, 173, 190, 239] }

/-- A completed bulk IN transfer that received 2 of 8 requested bytes. -/
def tdRequestDone : TransferData :=
  { urb_ptr := 5,
    urb := { ep_type := USBDEVFS_URB_TYPE_BULK, endpoint := 129, status := 0,
             buffer := some 6, buffer_length := 8, actual_length := 2,
             usercontext := 0, number_of_packets := 0, iso_frame_desc := [] },
    capacity := 8,
    mem := [7, 8, 0, 0, 0, 0, 0, 0] }

/-- A completed isochronous IN transfer: 3 packets of requested length 2;
the middle packet failed with per-packet status 5, the last received 1 byte. -/
def tdIsoDone : TransferData :=
  { urb_ptr := 1,
    urb := { ep_type := USBDEVFS_URB_TYPE_ISO, endpoint := 129, status := 0,
             buffer := some 7, buffer_length := 6, actual_length := 0,
             usercontext := 0, number_of_packets := 3,
             iso_frame_desc := [⟨2, 2, 0⟩, ⟨2, 1, 5⟩, ⟨2, 1, 0⟩] },
    capacity := 6,
    mem := [1, 2, 3, 4, 5, 6] }

/-- A completed `ControlOut` transfer whose urb reports errno -19 (NODEV). -/
def tdControlOutDone : TransferData :=
  { urb_ptr := 8,
    urb := { ep_type := USBDEVFS_URB_TYPE_CONTROL, endpoint := 0, status := 0,
             buffer := some 9, buffer_length := 12, actual_length := 4,
             usercontext := 0, number_of_packets := 0, iso_frame_desc := [] },
    capacity := 12,
    mem := [64, 50, 0, 0, 0, 0, 4, 0, 1, 2, 3, 4] }

/-- A urb whose completion status carries errno -71 (PROTO). -/
def urbFaultSample : Urb :=
  { ep_type := USBDEVFS_URB_TYPE_BULK, endpoint := 129, status := -71,
    buffer := none, buffer_length := 0, actual_length := 0,
    usercontext := 0, number_of_packets := 0, iso_frame_desc := [] }

/-- A blocking control-IN backend answering every request with the 4-byte
string descriptor `[0x04, 0x03, 0x09, 0x04]` (language list `[0x0409]`). -/
def ciLangSample : ControlInBlocking := fun _ _ _ => Except.ok [4, 3, 9, 4]

/-- A blocking control-IN backend failing every request with a stall. -/
def ciStallSample : ControlInBlocking := fun _ _ _ =>
  Except.error TransferError.Stall

/-- Two cached configuration descriptors with values 1 and 2. -/
def cfgSample : List ConfigurationDescriptor := [⟨1, [9]⟩, ⟨2, [5]⟩]

/-! Helper equation lemmas shared by several claim proofs. -/

/-- Successful `fill` produces the urb/capacity/memory update of the source. -/
theorem fill_some (td : TransferData) (v : Vec) (len u : Nat)
    (hfit : len ≤ I32_MAX) :
    td.fill v len u = some { td with
      urb := { td.urb with
        buffer := some v.ptr,
        buffer_length := len,
        usercontext := u,
        actual_length := 0 },
      capacity := v.capacity,
      mem := v.data } := by
  unfold TransferData.fill
  rw [if_pos hfit]

/-- Successful `take_buf` yields the rebuilt vector and the cleared state. -/
theorem take_buf_some (td : TransferData) (p : Nat) (length : Nat)
    (hb : td.urb.buffer = some p) (hl : length ≤ td.capacity) :
    td.take_buf length = some (⟨p, td.mem.take length, td.capacity⟩,
      { td with
        urb := { td.urb with buffer := none },
        capacity := 0,
        mem := [] }) := by
  unfold TransferData.take_buf
  rw [hb]
  simp [hl]

/-- A successful `take_buf` clears the urb's buffer pointer, zeroes the
capacity, leaves after-drop freeing only the urb box, and passed the
`length <= capacity` assertion. -/
theorem take_buf_clears (td : TransferData) (length : Nat) (v : Vec)
    (td1 : TransferData) (h : td.take_buf length = some (v, td1)) :
    td1.urb.buffer = none ∧ td1.capacity = 0 ∧
    td1.dropFreed = [td1.urb_ptr] ∧ length ≤ td.capacity := by
  cases hb : td.urb.buffer with
  | none =>
    unfold TransferData.take_buf at h
    rw [hb] at h
    cases h
  | some p =>
    by_cases hl : length ≤ td.capacity
    · rw [take_buf_some td p length hb hl] at h
      cases h
      exact ⟨rfl, rfl, rfl, hl⟩
    · simp only [TransferData.take_buf, hb] at h
      rw [if_neg hl] at h
      cases h

/-- C4: a buffer allocation recycled through a transfer is returned intact —
`fill` installs the vector's pointer in the urb and records its capacity, and
`take_buf` rebuilds a vector with exactly that pointer and that capacity. -/
theorem fill_take_buf_roundtrip (td : TransferData) (v : Vec)
    (len length u : Nat) (hfit : len ≤ I32_MAX) (hlen : length ≤ v.capacity) :
    ∃ td1 td2, td.fill v len u = some td1 ∧
      td1.urb.buffer = some v.ptr ∧ td1.capacity = v.capacity ∧
      td1.take_buf length =
        some (⟨v.ptr, v.data.take length, v.capacity⟩, td2) := by
  exact ⟨_, _, fill_some td v len u hfit, rfl, rfl,
    take_buf_some _ v.ptr length rfl hlen⟩

/-- C4 witness: recycling a 3-byte vector of capacity 8 through a transfer
returns the same pointer and capacity. -/
theorem fill_take_buf_roundtrip_witness :
    ∃ td1 td2,
      (TransferData.new 1 2 TransferType.Bulk).fill ⟨11, [1, 2, 3], 8⟩ 3 0
        = some td1 ∧
      td1.urb.buffer = some 11 ∧ td1.capacity = 8 ∧
      td1.take_buf 3 = some (⟨11, [1, 2, 3], 8⟩, td2) :=
  fill_take_buf_roundtrip (TransferData.new 1 2 TransferType.Bulk)
    ⟨11, [1, 2, 3], 8⟩ 3 3 0 (by decide) (by decide)

/-- C5: a reaped transfer's status is `Ok` exactly when the urb status field
is 0; otherwise the errno, taken by absolute value, maps as: NODEV/SHUTDOWN
to Disconnected, PIPE to Stall, NOENT/CONNRESET/TIMEDOUT to Cancelled,
PROTO/ILSEQ/OVERFLOW/COMM/TIME to Fault, and any other errno to Unknown. -/
theorem urb_status_errno_mapping :
    (∀ urb : Urb, urb_status urb = Except.ok () ↔ urb.status = 0) ∧
    (∀ urb : Urb, urb.status ≠ 0 →
      urb_status urb =
        Except.error (errno_to_transfer_error urb.status.natAbs)) ∧
    (errno_to_transfer_error ENODEV = TransferError.Disconnected ∧
     errno_to_transfer_error ESHUTDOWN = TransferError.Disconnected) ∧
    errno_to_transfer_error EPIPE = TransferError.Stall ∧
    (errno_to_transfer_error ENOENT = TransferError.Cancelled ∧
     errno_to_transfer_error ECONNRESET = TransferError.Cancelled ∧
     errno_to_transfer_error ETIMEDOUT = TransferError.Cancelled) ∧
    (errno_to_transfer_error EPROTO = TransferError.Fault ∧
     errno_to_transfer_error EILSEQ = TransferError.Fault ∧
     errno_to_transfer_error EOVERFLOW = TransferError.Fault ∧
     errno_to_transfer_error ECOMM = TransferError.Fault ∧
     errno_to_transfer_error ETIME = TransferError.Fault) ∧
    (∀ e : Nat, e ≠ ENODEV → e ≠ ESHUTDOWN → e ≠ EPIPE → e ≠ ENOENT →
      e ≠ ECONNRESET → e ≠ ETIMEDOUT → e ≠ EPROTO → e ≠ EILSEQ →
      e ≠ EOVERFLOW → e ≠ ECOMM → e ≠ ETIME →
      errno_to_transfer_error e = TransferError.Unknown) := by
  refine ⟨?_, ?_, by decide, by decide, by decide, by decide, ?_⟩
  · intro urb
    unfold urb_status
    by_cases h : urb.status = 0
    · simp [h]
    · simp [h]
  · intro urb h
    unfold urb_status
    rw [if_neg h]
  · intro e h1 h2 h3 h4 h5 h6 h7 h8 h9 h10 h11
    unfold errno_to_transfer_error
    rw [if_neg (by simp [h1, h2]), if_neg h3, if_neg (by simp [h4, h5, h6]),
        if_neg (by simp [h7, h8, h9, h10, h11])]

/-- C5 witness: a urb whose status is -71 (PROTO) maps through the absolute
value to the Fault error. -/
theorem urb_status_errno_mapping_witness :
    urb_status urbFaultSample =
      Except.error (errno_to_transfer_error urbFaultSample.status.natAbs) :=
  urb_status_errno_mapping.2.1 urbFaultSample (by decide)

/-- C8: `active_configuration` returns a cached configuration descriptor
whose value equals the backend-reported active value, and fails with the
no-active-configuration error carrying that value exactly when no cached
descriptor matches. -/
theorem active_configuration_spec (configs : List ConfigurationDescriptor)
    (active : Nat) :
    (∀ c, active_configuration configs active = Except.ok c →
      c ∈ configs ∧ c.configuration_value = active) ∧
    (active_configuration configs active = Except.error ⟨active⟩ ↔
      ∀ c ∈ configs, c.configuration_value ≠ active) ∧
    (∀ e, active_configuration configs active = Except.error e →
      e = ⟨active⟩) := by
  refine ⟨?_, ?_, ?_⟩
  · intro c hc
    unfold active_configuration at hc
    cases hf : configs.find? (fun c => c.configuration_value == active) with
    | none => rw [hf] at hc; cases hc
    | some c0 =>
      rw [hf] at hc
      cases hc
      exact ⟨List.mem_of_find?_eq_some hf, by simpa using List.find?_some hf⟩
  · constructor
    · intro h c hm hv
      unfold active_configuration at h
      cases hf : configs.find? (fun c => c.configuration_value == active) with
      | some c0 => rw [hf] at h; cases h
      | none =>
        have hnc := List.find?_eq_none.mp hf c hm
        simp [hv] at hnc
    · intro h
      unfold active_configuration
      have hf : configs.find? (fun c => c.configuration_value == active)
          = none :=
        List.find?_eq_none.mpr (fun c hm => by simpa using h c hm)
      rw [hf]
  · intro e he
    unfold active_configuration at he
    cases hf : configs.find? (fun c => c.configuration_value == active) with
    | some c0 => rw [hf] at he; cases he
    | none => rw [hf] at he; cases he; rfl

/-- C8 witness: with cached configurations of values 1 and 2 and active
value 2, the lookup returns the descriptor with value 2. -/
theorem active_configuration_spec_witness :
    (⟨2, [5]⟩ : ConfigurationDescriptor) ∈ cfgSample ∧
    (⟨2, [5]⟩ : ConfigurationDescriptor).configuration_value = 2 :=
  (active_configuration_spec cfgSample 2).1 ⟨2, [5]⟩ rfl

/-- C10: after `take_completed` of any buffer variant, the urb's buffer
pointer is null and the stored capacity is 0 (each reap goes through
`take_buf`, whose `length <= capacity` assertion passed), so dropping the
transfer afterwards frees only the urb allocation, never the buffer handed
back to the caller. -/
theorem take_completed_returns_idle :
    (∀ td c td1, takeCompletedOut td = some (c, td1) →
      td1.urb.buffer = none ∧ td1.capacity = 0 ∧
      td1.dropFreed = [td1.urb_ptr]) ∧
    (∀ td c td1, takeCompletedRequestBuffer td = some (c, td1) →
      td1.urb.buffer = none ∧ td1.capacity = 0 ∧
      td1.dropFreed = [td1.urb_ptr] ∧ td.urb.actual_length ≤ td.capacity) ∧
    (∀ td c td1, takeCompletedIsochronous td = some (c, td1) →
      td1.urb.buffer = none ∧ td1.capacity = 0 ∧
      td1.dropFreed = [td1.urb_ptr] ∧ td.urb.buffer_length ≤ td.capacity) ∧
    (∀ td c td1, takeCompletedControlIn td = some (c, td1) →
      td1.urb.buffer = none ∧ td1.capacity = 0 ∧
      td1.dropFreed = [td1.urb_ptr] ∧
      SETUP_PACKET_SIZE + td.urb.actual_length ≤ td.capacity) ∧
    (∀ td c td1, takeCompletedControlOut td = some (c, td1) →
      td1.urb.buffer = none ∧ td1.capacity = 0 ∧
      td1.dropFreed = [td1.urb_ptr]) := by
  refine ⟨?_, ?_, ?_, ?_, ?_⟩
  · intro td c td1 h
    unfold takeCompletedOut at h
    rcases Option.map_eq_some'.mp h with ⟨⟨w, td2⟩, hw, hf⟩
    cases hf
    have hc := take_buf_clears td 0 w td2 hw
    exact ⟨hc.1, hc.2.1, hc.2.2.1⟩
  · intro td c td1 h
    unfold takeCompletedRequestBuffer at h
    rcases Option.map_eq_some'.mp h with ⟨⟨w, td2⟩, hw, hf⟩
    cases hf
    exact take_buf_clears td _ w td2 hw
  · intro td c td1 h
    simp only [takeCompletedIsochronous] at h
    cases htb : td.take_buf td.urb.buffer_length with
    | none => rw [htb] at h; cases h
    | some r =>
      obtain ⟨buffer, td2⟩ := r
      simp only [htb] at h
      cases his : isoSlice buffer.data 0 td2.urb.iso_frame_desc with
      | none => rw [his] at h; cases h
      | some out =>
        rw [his] at h
        cases h
        exact take_buf_clears td _ buffer _ htb
  · intro td c td1 h
    unfold takeCompletedControlIn at h
    rcases Option.map_eq_some'.mp h with ⟨⟨w, td2⟩, hw, hf⟩
    cases hf
    exact take_buf_clears td _ w td2 hw
  · intro td c td1 h
    unfold takeCompletedControlOut at h
    rcases Option.map_eq_some'.mp h with ⟨⟨w, td2⟩, hw, hf⟩
    cases hf
    have hc := take_buf_clears td 0 w td2 hw
    exact ⟨hc.1, hc.2.1, hc.2.2.1⟩

/-- C10 witness: reaping a completed bulk IN transfer leaves the transfer
with a null buffer pointer and zero capacity, and dropping it then frees
only the urb allocation. -/
theorem take_completed_returns_idle_witness :
    ∃ c td1, takeCompletedRequestBuffer tdRequestDone = some (c, td1) ∧
      td1.urb.buffer = none ∧ td1.capacity = 0 ∧
      td1.dropFreed = [td1.urb_ptr] ∧
      tdRequestDone.urb.actual_length ≤ tdRequestDone.capacity :=
  ⟨_, _, rfl, take_completed_returns_idle.2.1 tdRequestDone _ _ rfl⟩

/-- C3: submission enforces endpoint direction and transfer type — an OUT
byte vector requires the endpoint direction bit clear, a `RequestBuffer`
requires it set with a bulk or interrupt urb, a `RequestIsochronousBuffer`
requires it set with an isochronous urb; otherwise the submission is
rejected, and under these preconditions (with lengths in machine range) the
assertion branches are unreachable and submission succeeds. -/
theorem submit_direction_type_assertions :
    (∀ td (data : Vec) u, td.urb.endpoint &&& 128 ≠ 0 →
      submitOutBytes td data u = none) ∧
    (∀ td (data : Vec) u, td.urb.endpoint &&& 128 = 0 →
      data.data.length ≤ I32_MAX →
      (submitOutBytes td data u).isSome = true) ∧
    (∀ td (data : RequestBuffer) u,
      ¬ (td.urb.endpoint &&& 128 = 128 ∧
         (td.urb.ep_type = USBDEVFS_URB_TYPE_BULK ∨
          td.urb.ep_type = USBDEVFS_URB_TYPE_INTERRUPT)) →
      submitRequestBuffer td data u = none) ∧
    (∀ td (data : RequestBuffer) u, td.urb.endpoint &&& 128 = 128 →
      (td.urb.ep_type = USBDEVFS_URB_TYPE_BULK ∨
       td.urb.ep_type = USBDEVFS_URB_TYPE_INTERRUPT) →
      data.requested ≤ I32_MAX →
      (submitRequestBuffer td data u).isSome = true) ∧
    (∀ td (data : RequestIsochronousBuffer) u,
      ¬ (td.urb.endpoint &&& 128 = 128 ∧
         td.urb.ep_type = USBDEVFS_URB_TYPE_ISO) →
      submitIsochronous td data u = none) ∧
    (∀ td (data : RequestIsochronousBuffer) u,
      td.urb.endpoint &&& 128 = 128 → td.urb.ep_type = USBDEVFS_URB_TYPE_ISO →
      data.requested ≤ U32_MAX →
      data.requested * data.number_of_packets ≤ I32_MAX →
      (submitIsochronous td data u).isSome = true) := by
  refine ⟨?_, ?_, ?_, ?_, ?_, ?_⟩
  · intro td data u h
    unfold submitOutBytes
    rw [if_neg h]
  · intro td data u h hf
    simp [submitOutBytes, h, TransferData.fill, hf]
  · intro td data u h
    unfold submitRequestBuffer
    rw [if_neg h]
  · intro td data u h1 h2 hf
    simp [submitRequestBuffer, h1, h2, RequestBuffer.into_vec,
      TransferData.fill, hf]
  · intro td data u h
    unfold submitIsochronous
    rw [if_neg h]
  · intro td data u h1 h2 h3 h4
    simp [submitIsochronous, h1, h2,
      TransferData.urb_setup_iso_packet_descriptors, h3,
      RequestIsochronousBuffer.into_vec, TransferData.fill, h4]

/-- C3 witness: a `RequestBuffer` submission on OUT endpoint 0x02 is
rejected, and the same submission on IN endpoint 0x82 of a bulk transfer
succeeds. -/
theorem submit_direction_type_assertions_witness :
    submitRequestBuffer (TransferData.new 1 2 TransferType.Bulk)
      ⟨5, 64, 64⟩ 0 = none ∧
    (submitRequestBuffer (TransferData.new 1 130 TransferType.Bulk)
      ⟨5, 64, 64⟩ 0).isSome = true :=
  ⟨submit_direction_type_assertions.2.2.1 _ ⟨5, 64, 64⟩ 0 (by decide),
   submit_direction_type_assertions.2.2.2.1 _ ⟨5, 64, 64⟩ 0 (by decide)
     (by decide) (by decide)⟩

/-- C1 counterexample: on the completed `ControlIn` transfer
`tdControlInDone`, whose urb reports actual length 4, the returned payload
has length 4 — the payload length equals the OS-reported actual length and
is not the OS-reported actual length minus 8. -/
theorem control_in_payload_counterexample :
    (takeCompletedControlIn tdControlInDone).map
      (fun r => r.1.data.data.length) = some 4 ∧
    ¬ ((4 : Int) = (tdControlInDone.urb.actual_length : Int) - 8) :=
  ⟨rfl, by decide⟩

/-- C1 (amended): for every reaped `ControlIn` transfer, the vector rebuilt
at reap holds `SETUP_PACKET_SIZE + actual_length` bytes and the returned
payload is that vector with its first 8 setup-packet bytes stripped: the
payload length equals the OS-reported actual length, and the payload
contains none of the 8 setup bytes placed at the start of the submitted
buffer. -/
theorem control_in_take_completed_spec (td : TransferData) (p : Nat)
    (hbuf : td.urb.buffer = some p)
    (hcap : SETUP_PACKET_SIZE + td.urb.actual_length ≤ td.capacity)
    (hmem : SETUP_PACKET_SIZE + td.urb.actual_length ≤ td.mem.length) :
    ∃ td1, takeCompletedControlIn td = some
      (⟨⟨p, (td.mem.take (SETUP_PACKET_SIZE + td.urb.actual_length)).drop
          SETUP_PACKET_SIZE, td.capacity⟩, urb_status td.urb⟩, td1) ∧
      ((td.mem.take (SETUP_PACKET_SIZE + td.urb.actual_length)).drop
          SETUP_PACKET_SIZE).length = td.urb.actual_length ∧
      (∀ setup rest, td.mem = setup ++ rest →
        setup.length = SETUP_PACKET_SIZE →
        (td.mem.take (SETUP_PACKET_SIZE + td.urb.actual_length)).drop
          SETUP_PACKET_SIZE = rest.take td.urb.actual_length) := by
  refine ⟨{ td with
    urb := { td.urb with buffer := none },
    capacity := 0,
    mem := [] }, ?_, ?_, ?_⟩
  · simp only [takeCompletedControlIn]
    rw [take_buf_some td p _ hbuf hcap]
    rfl
  · rw [List.length_drop, List.length_take]
    omega
  · intro setup rest hsr hslen
    rw [hsr, List.take_append_eq_append_take,
        List.take_of_length_le (by omega), hslen,
        Nat.add_sub_cancel_left, ← hslen, List.drop_left]

/-- C1 witness: the amended theorem applied to `tdControlInDone`. -/
theorem control_in_take_completed_spec_witness :
    ∃ td1, takeCompletedControlIn tdControlInDone = some
      (⟨⟨2, (tdControlInDone.mem.take (SETUP_PACKET_SIZE +
          tdControlInDone.urb.actual_length)).drop SETUP_PACKET_SIZE,
        tdControlInDone.capacity⟩, urb_status tdControlInDone.urb⟩, td1) ∧
      ((tdControlInDone.mem.take (SETUP_PACKET_SIZE +
          tdControlInDone.urb.actual_length)).drop SETUP_PACKET_SIZE).length
        = tdControlInDone.urb.actual_length ∧
      (∀ setup rest, tdControlInDone.mem = setup ++ rest →
        setup.length = SETUP_PACKET_SIZE →
        (tdControlInDone.mem.take (SETUP_PACKET_SIZE +
          tdControlInDone.urb.actual_length)).drop SETUP_PACKET_SIZE
          = rest.take tdControlInDone.urb.actual_length) :=
  control_in_take_completed_spec tdControlInDone 2 rfl (by decide) (by decide)

/-- C6: every submitted control transfer installs a buffer that begins with
the 8-byte setup packet — for `ControlIn` the installed buffer length is
`8 + requested length` with the setup packet as its initialized beginning,
for `ControlOut` the installed buffer length is `8 + len(data)` and its
contents are the setup packet followed by the caller's data. -/
theorem control_submit_prepends_setup (td1 td2 : TransferData)
    (ci : ControlIn) (co : ControlOut) (p1 p2 u1 u2 : Nat)
    (hfit1 : SETUP_PACKET_SIZE + ci.length ≤ I32_MAX)
    (hlen : co.data.length ≤ 65535)
    (hfit2 : SETUP_PACKET_SIZE + co.data.length ≤ I32_MAX) :
    (∃ td1', submitControlIn td1 ci p1 u1 = some td1' ∧
      td1'.urb.buffer_length = SETUP_PACKET_SIZE + ci.length ∧
      ci.setup_packet.length = SETUP_PACKET_SIZE ∧
      td1'.mem = ci.setup_packet ∧
      td1'.urb.buffer = some p1) ∧
    (∃ sp td2', co.setup_packet = some sp ∧
      sp.length = SETUP_PACKET_SIZE ∧
      submitControlOut td2 co p2 u2 = some td2' ∧
      td2'.urb.buffer_length = SETUP_PACKET_SIZE + co.data.length ∧
      td2'.mem = sp ++ co.data ∧
      td2'.mem.take SETUP_PACKET_SIZE = sp ∧
      td2'.urb.buffer = some p2) := by
  constructor
  · exact ⟨_, fill_some td1 ⟨p1, ci.setup_packet,
      SETUP_PACKET_SIZE + ci.length⟩ (SETUP_PACKET_SIZE + ci.length) u1 hfit1,
      rfl, rfl, rfl, rfl⟩
  · cases hsp : co.setup_packet with
    | none =>
      exfalso
      unfold ControlOut.setup_packet at hsp
      rw [if_pos hlen] at hsp
      cases hsp
    | some sp =>
      have hsplen : sp.length = SETUP_PACKET_SIZE := by
        unfold ControlOut.setup_packet at hsp
        rw [if_pos hlen] at hsp
        cases hsp
        rfl
      have htake : (sp ++ co.data).take SETUP_PACKET_SIZE = sp := by
        rw [← hsplen, List.take_left]
      have hroute : submitControlOut td2 co p2 u2 =
          td2.fill ⟨p2, sp ++ co.data, SETUP_PACKET_SIZE + co.data.length⟩
            (SETUP_PACKET_SIZE + co.data.length) u2 := by
        unfold submitControlOut
        rw [hsp]
      exact ⟨sp, _, rfl, hsplen,
        hroute.trans (fill_some td2 _ _ u2 hfit2), rfl, rfl, htake, rfl⟩

/-- C6 witness: a vendor `ControlIn` of length 4 and a vendor `ControlOut`
with a 2-byte payload both install setup-packet-headed buffers. -/
theorem control_submit_prepends_setup_witness :
    ∃ td1', submitControlIn (TransferData.new 1 0 TransferType.Control)
        ⟨ControlType.Vendor, Recipient.Device, 48, 0, 0, 4⟩ 9 0 = some td1' ∧
      td1'.urb.buffer_length = SETUP_PACKET_SIZE + 4 ∧
      (⟨ControlType.Vendor, Recipient.Device, 48, 0, 0, 4⟩ :
        ControlIn).setup_packet.length = SETUP_PACKET_SIZE ∧
      td1'.mem = (⟨ControlType.Vendor, Recipient.Device, 48, 0, 0, 4⟩ :
        ControlIn).setup_packet ∧
      td1'.urb.buffer = some 9 :=
  (control_submit_prepends_setup (TransferData.new 1 0 TransferType.Control)
    (TransferData.new 1 0 TransferType.Control)
    ⟨ControlType.Vendor, Recipient.Device, 48, 0, 0, 4⟩
    ⟨ControlType.Vendor, Recipient.Device, 50, 0, 0, [1, 2]⟩ 9 9 0 0
    (by decide) (by decide) (by decide)).1

/-! Routing lemmas for `get_descriptor`, shared by the device-layer claims. -/

/-- A failing blocking control-IN call makes `get_descriptor` fail with the
propagated transfer error. -/
theorem get_descriptor_routes_error (ci : ControlInBlocking)
    (desc_type desc_index language_id timeout : Nat) (e : TransferError)
    (he : ci ⟨ControlType.Standard, Recipient.Device,
        STANDARD_REQUEST_GET_DESCRIPTOR, (desc_type <<< 8) ||| desc_index,
        language_id⟩ 4096 timeout = Except.error e) :
    get_descriptor ci desc_type desc_index language_id timeout =
      Except.error (Error.transfer e) := by
  unfold get_descriptor
  simp only [List.length_replicate]
  rw [he]

/-- A successful blocking control-IN call makes `get_descriptor` return
exactly the bytes the call reported written. -/
theorem get_descriptor_routes_ok (ci : ControlInBlocking)
    (desc_type desc_index language_id timeout : Nat) (written : List Nat)
    (hw : ci ⟨ControlType.Standard, Recipient.Device,
        STANDARD_REQUEST_GET_DESCRIPTOR, (desc_type <<< 8) ||| desc_index,
        language_id⟩ 4096 timeout = Except.ok written) :
    get_descriptor ci desc_type desc_index language_id timeout =
      Except.ok written := by
  unfold get_descriptor
  simp only [List.length_replicate]
  rw [hw]
  simp only [List.take_left]

/-- C9: `get_descriptor` issues a blocking Standard/Device control IN with
request 0x06 (GET_DESCRIPTOR), value `(desc_type << 8) | desc_index`, index
`language_id` and the given timeout into a 4096-byte buffer, propagating a
transfer error and otherwise returning the buffer truncated to the number
of bytes the transfer reported. -/
theorem get_descriptor_spec (ci : ControlInBlocking)
    (desc_type desc_index language_id timeout : Nat) :
    (∀ e, ci ⟨ControlType.Standard, Recipient.Device,
        STANDARD_REQUEST_GET_DESCRIPTOR, (desc_type <<< 8) ||| desc_index,
        language_id⟩ 4096 timeout = Except.error e →
      get_descriptor ci desc_type desc_index language_id timeout =
        Except.error (Error.transfer e)) ∧
    (∀ written, ci ⟨ControlType.Standard, Recipient.Device,
        STANDARD_REQUEST_GET_DESCRIPTOR, (desc_type <<< 8) ||| desc_index,
        language_id⟩ 4096 timeout = Except.ok written →
      get_descriptor ci desc_type desc_index language_id timeout =
        Except.ok written) :=
  ⟨fun e he => get_descriptor_routes_error ci desc_type desc_index
      language_id timeout e he,
   fun written hw => get_descriptor_routes_ok ci desc_type desc_index
      language_id timeout written hw⟩

/-- C9 witness: a stalling backend makes `get_descriptor` fail with the
propagated stall error. -/
theorem get_descriptor_spec_witness :
    get_descriptor ciStallSample 1 0 0 9 =
      Except.error (Error.transfer TransferError.Stall) :=
  (get_descriptor_spec ciStallSample 1 0 0 9).1 TransferError.Stall rfl

/-- C7: `get_string_descriptor_supported_languages` requests string
descriptor index 0 with language id 0; bytes that fail string-descriptor
validation produce the invalid-data error; valid bytes yield the bytes after
the first two decoded as little-endian 16-bit language ids — in particular a
valid descriptor whose body bytes are `[0x09, 0x04]` yields exactly
`[0x0409]`. -/
theorem supported_languages_spec (ci : ControlInBlocking) (timeout : Nat) :
    (∀ e, ci ⟨ControlType.Standard, Recipient.Device,
        STANDARD_REQUEST_GET_DESCRIPTOR, (DESCRIPTOR_TYPE_STRING <<< 8) ||| 0,
        0⟩ 4096 timeout = Except.error e →
      get_string_descriptor_supported_languages ci timeout =
        Except.error (Error.transfer e)) ∧
    (∀ data, ci ⟨ControlType.Standard, Recipient.Device,
        STANDARD_REQUEST_GET_DESCRIPTOR, (DESCRIPTOR_TYPE_STRING <<< 8) ||| 0,
        0⟩ 4096 timeout = Except.ok data →
      validate_string_descriptor data = false →
      get_string_descriptor_supported_languages ci timeout =
        Except.error Error.invalidData) ∧
    (∀ data, ci ⟨ControlType.Standard, Recipient.Device,
        STANDARD_REQUEST_GET_DESCRIPTOR, (DESCRIPTOR_TYPE_STRING <<< 8) ||| 0,
        0⟩ 4096 timeout = Except.ok data →
      validate_string_descriptor data = true →
      get_string_descriptor_supported_languages ci timeout =
        Except.ok (langIdPairs (data.drop 2))) ∧
    get_string_descriptor_supported_languages ciLangSample timeout =
      Except.ok [1033] := by
  refine ⟨?_, ?_, ?_, rfl⟩
  · intro e he
    unfold get_string_descriptor_supported_languages
    rw [get_descriptor_routes_error ci DESCRIPTOR_TYPE_STRING 0 0 timeout e he]
  · intro data hd hv
    unfold get_string_descriptor_supported_languages
    rw [get_descriptor_routes_ok ci DESCRIPTOR_TYPE_STRING 0 0 timeout data hd]
    simp [hv]
  · intro data hd hv
    unfold get_string_descriptor_supported_languages
    rw [get_descriptor_routes_ok ci DESCRIPTOR_TYPE_STRING 0 0 timeout data hd]
    simp [hv]

/-- C7 witness: the descriptor bytes `[0x04, 0x03, 0x09, 0x04]` validate and
decode to the language list `[0x0409]`. -/
theorem supported_languages_spec_witness :
    get_string_descriptor_supported_languages ciLangSample 3 =
      Except.ok (langIdPairs ([4, 3, 9, 4].drop 2)) :=
  (supported_languages_spec ciLangSample 3).2.2.1 [4, 3, 9, 4] rfl rfl

/-- The isochronous output never has more entries than there are packet
descriptors. -/
theorem isoOutputSpec_length_le (buf : List Nat) (L : Nat) :
    ∀ (descs : List IsoPacketDesc) (i : Nat),
      (isoOutputSpec buf L i descs).length ≤ descs.length
  | [], _ => Nat.le_refl 0
  | d :: rest, i => by
    simp only [isoOutputSpec]
    by_cases hs : d.status = 0
    · rw [if_pos hs]
      simpa using Nat.succ_le_succ (isoOutputSpec_length_le buf L rest (i + 1))
    · rw [if_neg hs]
      exact Nat.le_succ_of_le (isoOutputSpec_length_le buf L rest (i + 1))

/-- When every packet descriptor requests `L` bytes and reports at most `L`
received, the slicing loop of the isochronous reap succeeds and computes the
spec-side output: packet `i` yields the `actual_length`-byte beginning of
the slot at offset `i * L`, packets with non-zero status are skipped. -/
theorem isoSlice_eq_spec (buf : List Nat) (L : Nat) :
    ∀ (descs : List IsoPacketDesc) (i : Nat),
      (∀ d ∈ descs, d.length = L) →
      (∀ d ∈ descs, d.actual_length ≤ L) →
      i * L + descs.length * L ≤ buf.length →
      isoSlice buf (i * L) descs = some (isoOutputSpec buf L i descs)
  | [], _, _, _, _ => rfl
  | d :: rest, i, hL, hA, hb => by
    have hdL : d.length = L := hL d (List.mem_cons_self d rest)
    have hdA : d.actual_length ≤ L := hA d (List.mem_cons_self d rest)
    have hstep : i * L + d.length = (i + 1) * L := by
      rw [hdL]; ring
    have hb' : (i + 1) * L + rest.length * L ≤ buf.length := by
      have h1 : (i + 1) * L + rest.length * L
          = i * L + (d :: rest).length * L := by
        rw [List.length_cons]; ring
      rw [h1]; exact hb
    have hrec := isoSlice_eq_spec buf L rest (i + 1)
      (fun x hx => hL x (List.mem_cons_of_mem d hx))
      (fun x hx => hA x (List.mem_cons_of_mem d hx)) hb'
    have hbound : i * L + d.actual_length ≤ buf.length :=
      calc i * L + d.actual_length ≤ i * L + L := Nat.add_le_add_left hdA _
        _ = (i + 1) * L := by ring
        _ ≤ (i + 1) * L + rest.length * L := Nat.le_add_right _ _
        _ ≤ buf.length := hb'
    simp only [isoSlice, isoOutputSpec]
    by_cases hs : d.status = 0
    · rw [if_pos hs, if_pos hs, if_pos hbound, hstep, hrec]
    · rw [if_neg hs, if_neg hs, hstep, hrec]

/-- A successful slice of the reaped buffer determines the whole isochronous
reap result. -/
theorem takeCompletedIsochronous_eq (td : TransferData) (p : Nat)
    (hbuf : td.urb.buffer = some p)
    (hcap : td.urb.buffer_length ≤ td.capacity) (out : List (List Nat))
    (hslice : isoSlice (td.mem.take td.urb.buffer_length) 0
      td.urb.iso_frame_desc = some out) :
    takeCompletedIsochronous td = some (⟨out, urb_status td.urb⟩,
      { td with
        urb := { td.urb with buffer := none },
        capacity := 0,
        mem := [] }) := by
  simp only [takeCompletedIsochronous, take_buf_some td p _ hbuf hcap, hslice]

/-- C2: for a reaped isochronous IN transfer with `N` packet descriptors of
requested length `L` (each reporting at most `L` bytes), the returned
sequence is exactly the spec-side output — at most `N` entries, nothing for
packets with non-zero status, and for each packet with status 0 the
`actual_length`-byte beginning of its fixed slot at byte offset `i * L`. -/
theorem isochronous_take_completed_spec (td : TransferData) (p N L : Nat)
    (hbuf : td.urb.buffer = some p)
    (hN : td.urb.iso_frame_desc.length = N)
    (hL : ∀ d ∈ td.urb.iso_frame_desc, d.length = L)
    (hA : ∀ d ∈ td.urb.iso_frame_desc, d.actual_length ≤ L)
    (hblen : td.urb.buffer_length = N * L)
    (hcap : td.urb.buffer_length ≤ td.capacity)
    (hmem : td.urb.buffer_length ≤ td.mem.length) :
    ∃ td1, takeCompletedIsochronous td = some
      (⟨isoOutputSpec (td.mem.take (N * L)) L 0 td.urb.iso_frame_desc,
        urb_status td.urb⟩, td1) ∧
      (isoOutputSpec (td.mem.take (N * L)) L 0 td.urb.iso_frame_desc).length
        ≤ N := by
  have hmem' : N * L ≤ td.mem.length := by rw [← hblen]; exact hmem
  have hlen_take : (td.mem.take (N * L)).length = N * L := by
    rw [List.length_take]
    exact Nat.min_eq_left hmem'
  have hbound : 0 * L + td.urb.iso_frame_desc.length * L
      ≤ (td.mem.take (N * L)).length := by
    rw [hN, hlen_take, Nat.zero_mul, Nat.zero_add]
  have hslice := isoSlice_eq_spec (td.mem.take (N * L)) L
    td.urb.iso_frame_desc 0 hL hA hbound
  rw [Nat.zero_mul] at hslice
  have hslice' : isoSlice (td.mem.take td.urb.buffer_length) 0
      td.urb.iso_frame_desc = some (isoOutputSpec (td.mem.take (N * L)) L 0
        td.urb.iso_frame_desc) := by
    rw [hblen]; exact hslice
  refine ⟨_, takeCompletedIsochronous_eq td p hbuf hcap _ hslice', ?_⟩
  rw [← hN]
  exact isoOutputSpec_length_le _ _ _ 0

/-- C2 witness: the theorem applied to `tdIsoDone` — 3 packets of requested
length 2, output `[[1, 2], [5]]` with the failed middle packet absent. -/
theorem isochronous_take_completed_spec_witness :
    ∃ td1, takeCompletedIsochronous tdIsoDone = some
      (⟨isoOutputSpec (tdIsoDone.mem.take (3 * 2)) 2 0
          tdIsoDone.urb.iso_frame_desc, urb_status tdIsoDone.urb⟩, td1) ∧
      (isoOutputSpec (tdIsoDone.mem.take (3 * 2)) 2 0
          tdIsoDone.urb.iso_frame_desc).length ≤ 3 :=
  isochronous_take_completed_spec tdIsoDone 7 3 2 rfl rfl (by decide)
    (by decide) rfl (by decide) (by decide)

end Nusb
